import Mathlib

/-!
Verification of the todo-app repository (Express + Mongoose + Zod CRUD API).

The development shallowly embeds the parts of the code that the checked
properties are about:

* a model of JavaScript runtime values (`JsValue`) rich enough for the
  duck-typed error inspection done by `src/utils/helpers/error-functions.ts`
  and `src/utils/handlers/error-handler.ts`;
* the error classifier `mapError` and the `AppError` constructor
  (`src/utils/helpers/error-classes.ts`);
* the Zod validation schemas for task and user creation
  (`src/schemas/task.schema.ts`, `src/schemas/user.schema.ts`) and the
  `validate` middleware (`src/middlewares/validate.middleware.ts`);
* the services and controllers for tasks and users over an explicit
  document-store state (a list of records), with Mongoose's required-field
  check, unique-email index, and timestamp maintenance made explicit;
* the route registrations of `src/server.ts`, `src/routes/task.routes.ts`
  and `src/routes/user.routes.ts`.

Functions that can throw at runtime are embedded as `Except`-valued
functions; a `.error` result models a thrown exception.
-/

set_option autoImplicit false

namespace TodoApp

/-! ## JavaScript value model

`JsValue` models the JavaScript values that flow through the error handler:
`null`, `undefined`, strings, numbers, booleans and plain objects.  An
object carries a flag recording whether it is an `instanceof Error`, and
its own enumerable properties as an ordered association list (JavaScript
preserves insertion order for string keys, which is what `Object.keys` /
`Object.values` enumerate).  Numbers are modelled as integers: every number
the repository inspects (the duplicate-key code 11000 and HTTP status
codes) is integral.
-/

inductive JsValue where
  | null
  | undefined
  | str (s : String)
  | num (n : Int)
  | bool (b : Bool)
  | obj (isError : Bool) (props : List (String × JsValue))

/-- A thrown JavaScript runtime error (the only kind the embedded code can
raise is a `TypeError` from a property access on `undefined`). -/
inductive JsError where
  | typeError
deriving Repr, DecidableEq

/-- `typeof v === 'object'`.  In JavaScript `typeof null` is `'object'`. -/
def typeofObject : JsValue → Bool
  | .null => true
  | .obj _ _ => true
  | _ => false

/-- `v === null`. -/
def jsIsNull : JsValue → Bool
  | .null => true
  | _ => false

/-- `k in v` for an object `v` (property presence). -/
def hasProp (v : JsValue) (k : String) : Bool :=
  match v with
  | .obj _ props => (props.lookup k).isSome
  | _ => false

/-- Property read `v.k` on a value already known to be an object; absent
properties read as `undefined`.  (Reads on possibly-`null` values are
modelled by `getMember` below.) -/
def getProp (v : JsValue) (k : String) : JsValue :=
  match v with
  | .obj _ props => (props.lookup k).getD .undefined
  | _ => .undefined

/-- `v instanceof Error`. -/
def isErrorInstance : JsValue → Bool
  | .obj isErr _ => isErr
  | _ => false

/-- `Object.keys(v)` for an object `v`. -/
def objKeys : JsValue → List String
  | .obj _ props => props.map Prod.fst
  | _ => []

/-- `Object.values(v)`: throws a `TypeError` on `null`/`undefined`;
enumerates own properties of an object; spreads a string into its
characters; yields `[]` for other primitives (they box to wrapper objects
with no own enumerable properties). -/
def objValues : JsValue → Except JsError (List JsValue)
  | .null => .error .typeError
  | .undefined => .error .typeError
  | .obj _ props => .ok (props.map Prod.snd)
  | .str s => .ok (s.data.map fun c => .str (String.mk [c]))
  | .num _ => .ok []
  | .bool _ => .ok []

/-- Property read `v.k` on an arbitrary value: throws a `TypeError` on
`null`/`undefined`; primitives box to wrappers without the properties the
code reads, so the read yields `undefined`. -/
def getMember (v : JsValue) (k : String) : Except JsError JsValue :=
  match v with
  | .null => .error .typeError
  | .undefined => .error .typeError
  | .obj _ props => .ok ((props.lookup k).getD .undefined)
  | _ => .ok .undefined

/-- Element-to-string conversion used by `Array.prototype.join`:
`null`/`undefined` render as the empty string, other values via their
standard string conversion. -/
def jsJoinString : JsValue → String
  | .null => ""
  | .undefined => ""
  | .str s => s
  | .num n => toString n
  | .bool b => if b then "true" else "false"
  | .obj _ _ => "[object Object]"

/-- `error.message` read on an `Error` instance.  The `Error` constructor
always installs a string `message` (defaulting to `''`), which the model
reflects by mapping a non-string read to `""`. -/
def errMessage (error : JsValue) : String :=
  match getProp error "message" with
  | .str s => s
  | _ => ""

/-! ## Status codes

Modelled from the spec: `src/utils/constants/status-codes.ts` is not in
the source snapshot (only its documentation, `docs/STATUS_CODES.md`, and
its import sites are); the values below are the ones that document lists.
-/

namespace StatusCodes

def OK : Int := 200
def CREATED : Int := 201
def BAD_REQUEST : Int := 400
def UNAUTHORIZED : Int := 401
def FORBIDDEN : Int := 403
def NOT_FOUND : Int := 404
def CONFLICT : Int := 409
def INTERNAL_SERVER_ERROR : Int := 500

end StatusCodes

/-! ## Error helper functions (`src/utils/helpers/error-functions.ts`) -/

/-- `isDuplicateKeyError`: `typeof error === 'object' && error !== null &&
'code' in error && error.code === 11000`. -/
def isDuplicateKeyError (error : JsValue) : Bool :=
  typeofObject error && !jsIsNull error && hasProp error "code" &&
    (match getProp error "code" with
     | .num n => n == 11000
     | _ => false)

/-- `field.charAt(0).toUpperCase() + field.slice(1)`. -/
def capitalizeFirst (s : String) : String :=
  match s.data with
  | [] => ""
  | c :: cs => String.mk (c.toUpper :: cs)

/-- `extractDuplicateField`: guarded read of the first key of
`error.keyValue`.  When `keyValue` is a (non-null) object with no keys,
`Object.keys(error.keyValue)[0]` is `undefined` and the subsequent
`.charAt(0)` throws a `TypeError`; otherwise the function is total and
falls back to `"Record"`. -/
def extractDuplicateField (error : JsValue) : Except JsError String :=
  if typeofObject error && !jsIsNull error && hasProp error "keyValue" &&
      typeofObject (getProp error "keyValue") &&
      !jsIsNull (getProp error "keyValue") then
    match objKeys (getProp error "keyValue") with
    | [] => .error .typeError
    | field :: _ => .ok (capitalizeFirst field)
  else
    .ok "Record"

/-- `isValidationError`: `error instanceof Error && error.name ===
'ValidationError'`. -/
def isValidationError (error : JsValue) : Bool :=
  isErrorInstance error &&
    (match getProp error "name" with
     | .str s => s == "ValidationError"
     | _ => false)

/-- `extractValidationMessage`: joins `err.message` over
`Object.values(error.errors)` with `", "`, returning `'Validation failed'`
only when the error is not an `Error` instance or lacks an `errors`
property. -/
def extractValidationMessage (error : JsValue) : Except JsError String :=
  if isErrorInstance error && hasProp error "errors" then do
    let values ← objValues (getProp error "errors")
    let messages ← values.mapM (fun err => getMember err "message")
    pure (String.intercalate ", " (messages.map jsJoinString))
  else
    pure "Validation failed"

/-- `isCastError`: `error instanceof Error && error.name === 'CastError'`. -/
def isCastError (error : JsValue) : Bool :=
  isErrorInstance error &&
    (match getProp error "name" with
     | .str s => s == "CastError"
     | _ => false)

/-- `isAppError`: `error instanceof Error && 'statusCode' in error &&
typeof error.statusCode === 'number'`. -/
def isAppError (error : JsValue) : Bool :=
  isErrorInstance error && hasProp error "statusCode" &&
    (match getProp error "statusCode" with
     | .num _ => true
     | _ => false)

/-! ## Error classifier (`src/utils/handlers/error-handler.ts`) -/

structure ErrorResponse where
  message : String
  statusCode : Int
deriving Repr, DecidableEq

/-- `error.statusCode || StatusCodes.INTERNAL_SERVER_ERROR` for an error
that passed `isAppError`; `0` is the only falsy integer. -/
def appErrorStatus (error : JsValue) : Int :=
  match getProp error "statusCode" with
  | .num n => if n == 0 then StatusCodes.INTERNAL_SERVER_ERROR else n
  | _ => StatusCodes.INTERNAL_SERVER_ERROR

/-- `mapError`: maps an arbitrary thrown value to a `(message, statusCode)`
pair, checking the error shapes in the source's order.  A `.error` result
models `mapError` itself throwing (which happens exactly when a helper it
calls throws). -/
def mapError (error : JsValue) : Except JsError ErrorResponse :=
  if isDuplicateKeyError error then do
    let field ← extractDuplicateField error
    pure ⟨field ++ " already exists", StatusCodes.CONFLICT⟩
  else if isValidationError error then do
    let msg ← extractValidationMessage error
    pure ⟨msg, StatusCodes.BAD_REQUEST⟩
  else if isCastError error then
    pure ⟨"Invalid data format", StatusCodes.BAD_REQUEST⟩
  else if isAppError error then
    pure ⟨errMessage error, appErrorStatus error⟩
  else if isErrorInstance error then
    pure ⟨errMessage error, StatusCodes.INTERNAL_SERVER_ERROR⟩
  else
    pure ⟨"An unexpected error occurred", StatusCodes.INTERNAL_SERVER_ERROR⟩

/-! ## Application error classes (`src/utils/helpers/error-classes.ts`) -/

/-- `new AppError(message, statusCode)`: an `Error` instance carrying
`message`, a numeric `statusCode`, and `name = 'AppError'`. -/
def AppError (message : String) (statusCode : Int) : JsValue :=
  .obj true
    [("message", .str message),
     ("statusCode", .num statusCode),
     ("name", .str "AppError")]

/-- `new AppError(message)`: the constructor's `statusCode` parameter
defaults to `StatusCodes.INTERNAL_SERVER_ERROR`. -/
def AppErrorDefault (message : String) : JsValue :=
  AppError message StatusCodes.INTERNAL_SERVER_ERROR

/-! ## Zod validation model

Zod (v4) runs a string schema's checks and transforms in chain order over a
running value: `min`/`max`/`email` test the *current* value and append an
issue on failure (later steps still run), while `trim`/`toLowerCase`
replace the current value.  In particular `z.string().min(1).trim()` runs
`min(1)` on the untrimmed input.  String `length` and `trim` are modelled
on characters, which agrees with JavaScript on the ASCII inputs involved.
-/

structure ZodIssue where
  path : List String
  message : String
deriving Repr, DecidableEq

/-- Running state of a string check chain: current value plus issues
collected so far. -/
structure ZodStringState where
  value : String
  issues : List String
deriving Repr, DecidableEq

def zodStart (s : String) : ZodStringState := ⟨s, []⟩

/-- `.min(n, msg)`. -/
def zodMin (n : Nat) (msg : String) (st : ZodStringState) : ZodStringState :=
  if st.value.length < n then { st with issues := st.issues ++ [msg] } else st

/-- `.max(n, msg)`. -/
def zodMax (n : Nat) (msg : String) (st : ZodStringState) : ZodStringState :=
  if n < st.value.length then { st with issues := st.issues ++ [msg] } else st

/-- Drop leading whitespace characters. -/
def dropLeadingWs : List Char → List Char
  | [] => []
  | c :: cs => if c.isWhitespace then dropLeadingWs cs else c :: cs

/-- JavaScript `String.prototype.trim` (on the ASCII whitespace the inputs
here contain). -/
def jsTrim (s : String) : String :=
  String.mk ((dropLeadingWs (dropLeadingWs s.data).reverse).reverse)

/-- JavaScript `String.prototype.toLowerCase` (ASCII). -/
def jsToLower (s : String) : String :=
  String.mk (s.data.map Char.toLower)

/-- `.trim()`. -/
def zodTrim (st : ZodStringState) : ZodStringState :=
  { st with value := jsTrim st.value }

/-- `.toLowerCase()`. -/
def zodToLowerCase (st : ZodStringState) : ZodStringState :=
  { st with value := jsToLower st.value }

/-- Character class of the local part of Zod's email regexp:
`[A-Za-z0-9_'+\-\.]`. -/
def emailLocalChar (c : Char) : Bool :=
  c.isAlphanum || c == '_' || c == '\'' || c == '+' || c == '-' || c == '.'

/-- Final character class of the local part: `[A-Za-z0-9_+\-]`. -/
def emailLocalLastChar (c : Char) : Bool :=
  c.isAlphanum || c == '_' || c == '+' || c == '-'

/-- Two consecutive dots anywhere (the regexp's `(?!.*\.\.)` lookahead,
anchored at the start of the whole string). -/
def hasConsecutiveDots : List Char → Bool
  | '.' :: '.' :: _ => true
  | _ :: rest => hasConsecutiveDots rest
  | [] => false

/-- Split a character list on a separator character (like
`String.prototype.split`, producing empty segments for adjacent
separators). -/
def splitOnChar (sep : Char) : List Char → List (List Char)
  | [] => [[]]
  | d :: ds =>
    match splitOnChar sep ds with
    | r :: rs => if d == sep then [] :: r :: rs else (d :: r) :: rs
    | [] => if d == sep then [[], []] else [[d]]

/-- Local part: `([A-Za-z0-9_'+\-\.]*)[A-Za-z0-9_+\-]`, not starting with
a dot (`(?!\.)`). -/
def validEmailLocal (lp : List Char) : Bool :=
  match lp.reverse with
  | [] => false
  | last :: _ =>
    emailLocalLastChar last && lp.all emailLocalChar &&
      !(lp.head? == some '.')

/-- Domain label: `[A-Za-z0-9][A-Za-z0-9\-]*`. -/
def validDomainLabel (lbl : List Char) : Bool :=
  match lbl with
  | [] => false
  | c :: cs => c.isAlphanum && cs.all (fun d => d.isAlphanum || d == '-')

/-- Zod's default email regexp:
`^(?!\.)(?!.*\.\.)([A-Za-z0-9_'+\-\.]*)[A-Za-z0-9_+\-]@([A-Za-z0-9][A-Za-z0-9\-]*\.)+[A-Za-z]{2,}$`. -/
def validEmail (s : String) : Bool :=
  match splitOnChar '@' s.data with
  | [lp, dp] =>
    validEmailLocal lp && !hasConsecutiveDots s.data &&
      (match (splitOnChar '.' dp).reverse with
       | tld :: labels =>
         !labels.isEmpty && labels.all validDomainLabel &&
           2 ≤ tld.length && tld.all Char.isAlpha
       | [] => false)
  | _ => false

/-- `.email(msg)`. -/
def zodEmail (msg : String) (st : ZodStringState) : ZodStringState :=
  if validEmail st.value then st else { st with issues := st.issues ++ [msg] }

/-- Finish a chain at a field path: fail with the collected issues, or
succeed with the transformed value. -/
def zodFinish (path : List String) (st : ZodStringState) :
    Except (List ZodIssue) String :=
  match st.issues with
  | [] => .ok st.value
  | issues => .error (issues.map fun m => ⟨path, m⟩)

/-- Merge two field results, concatenating issues (a Zod object reports
the issues of all of its failing fields). -/
def zodPair {α β : Type} (a : Except (List ZodIssue) α)
    (b : Except (List ZodIssue) β) : Except (List ZodIssue) (α × β) :=
  match a, b with
  | .ok x, .ok y => .ok (x, y)
  | .error ia, .ok _ => .error ia
  | .ok _, .error ib => .error ib
  | .error ia, .error ib => .error (ia ++ ib)

/-! ### Task creation schema (`src/schemas/task.schema.ts`) -/

/-- Raw request body for `POST /tasks` (fields absent from the JSON body
are `none`; `express.json()` always supplies a body object). -/
structure TaskBody where
  title : Option String
  description : Option String
  completed : Option Bool
deriving Repr, DecidableEq

/-- Parse output of `createTaskSchema`'s `body` object. -/
structure ParsedTaskBody where
  title : String
  description : Option String
  completed : Bool
deriving Repr, DecidableEq

/-- `title: z.string({message}).min(1).max(200).trim()`.  A missing (or
non-string) value fails the base string check with the custom message. -/
def parseTaskTitle (input : Option String) : Except (List ZodIssue) String :=
  match input with
  | none => .error [⟨["body", "title"], "Title is required"⟩]
  | some s =>
    zodFinish ["body", "title"]
      (zodTrim (zodMax 200 "Title must not exceed 200 characters"
        (zodMin 1 "Title must not be empty" (zodStart s))))

/-- `description: z.string().max(1000).trim().optional()`. -/
def parseTaskDescription (input : Option String) :
    Except (List ZodIssue) (Option String) :=
  match input with
  | none => .ok none
  | some s =>
    (zodFinish ["body", "description"]
      (zodTrim (zodMax 1000 "Description must not exceed 1000 characters"
        (zodStart s)))).map some

/-- `completed: z.boolean().optional().default(false)`. -/
def parseTaskCompleted (input : Option Bool) : Except (List ZodIssue) Bool :=
  match input with
  | none => .ok false
  | some b => .ok b

/-- `createTaskSchema` applied to `{body, query, params}`; only the `body`
key is constrained, so the parse is a function of the body. -/
def createTaskSchema (b : TaskBody) : Except (List ZodIssue) ParsedTaskBody :=
  (zodPair (parseTaskTitle b.title)
    (zodPair (parseTaskDescription b.description)
      (parseTaskCompleted b.completed))).map
    fun p => ⟨p.1, p.2.1, p.2.2⟩

/-! ### User creation schema (`src/schemas/user.schema.ts`) -/

/-- Raw request body for `POST /users`. -/
structure UserBody where
  name : Option String
  email : Option String
deriving Repr, DecidableEq

/-- Parse output of `createUserSchema`'s `body` object. -/
structure ParsedUserBody where
  name : String
  email : String
deriving Repr, DecidableEq

/-- `name: z.string({message}).min(2).max(100).trim()`. -/
def parseUserName (input : Option String) : Except (List ZodIssue) String :=
  match input with
  | none => .error [⟨["body", "name"], "Name is required"⟩]
  | some s =>
    zodFinish ["body", "name"]
      (zodTrim (zodMax 100 "Name must not exceed 100 characters"
        (zodMin 2 "Name must be at least 2 characters" (zodStart s))))

/-- `email: z.string({message}).email(msg).toLowerCase().trim()`.  The
email format check runs on the raw value, before the lowercasing and
trimming transforms. -/
def parseUserEmail (input : Option String) : Except (List ZodIssue) String :=
  match input with
  | none => .error [⟨["body", "email"], "Email is required"⟩]
  | some s =>
    zodFinish ["body", "email"]
      (zodTrim (zodToLowerCase (zodEmail "Invalid email format" (zodStart s))))

/-- `createUserSchema` applied to `{body, query, params}`. -/
def createUserSchema (b : UserBody) : Except (List ZodIssue) ParsedUserBody :=
  (zodPair (parseUserName b.name) (parseUserEmail b.email)).map
    fun p => ⟨p.1, p.2⟩

/-! ## Validation middleware (`src/middlewares/validate.middleware.ts`)

`validate(schema)` awaits `schema.parseAsync({body, query, params})`.  On
failure it short-circuits with a 400 response listing dotted field paths
and messages.  On success it calls `next()` — the value returned by
`parseAsync` is discarded, so the request proceeds with the *original*
request fields, not the parsed/transformed ones.
-/

/-- Outcome of the validation gate for a request with body `β`. -/
inductive GateOutcome (β : Type) where
  | rejected (statusCode : Int) (message : String)
      (errors : List (String × String))
  | proceeded (body : β)
deriving Repr, DecidableEq

def validate {β γ : Type} (parse : β → Except (List ZodIssue) γ) (body : β) :
    GateOutcome β :=
  match parse body with
  | .error issues =>
    .rejected StatusCodes.BAD_REQUEST "Validation failed"
      (issues.map fun i => (String.intercalate "." i.path, i.message))
  | .ok _ => .proceeded body

/-! ## Document store and models

The MongoDB collections are modelled as lists of records in insertion
order.  Ids are opaque store-assigned values (modelled as `Nat`); the
`timestamps: true` schema option is made explicit by threading the current
time `now` into every write, which sets `updatedAt` (and `createdAt` on
creation).  Mongoose's `required: true` check for string paths rejects
missing values and the empty string (string truthiness of `v.length`), and
the `unique: true` index on user emails rejects an exact duplicate of an
already-stored email.
-/

/-- A stored task document (`src/models/task.model.ts`). -/
structure TaskRecord where
  id : Nat
  title : String
  description : Option String
  completed : Bool
  createdAt : Nat
  updatedAt : Nat
deriving Repr, DecidableEq

abbrev TaskStore := List TaskRecord

/-- A stored user document (`src/models/user.model.ts`). -/
structure UserRecord where
  id : Nat
  name : String
  email : String
  createdAt : Nat
  updatedAt : Nat
deriving Repr, DecidableEq

abbrev UserStore := List UserRecord

/-- Mongoose's required check for a string path: fails on a missing value
and on the empty string. -/
def mongooseRequiredString : Option String → Bool
  | none => false
  | some s => 0 < s.length

/-- The `ValidationError` Mongoose raises when document validation fails:
an `Error` with `name = 'ValidationError'` and an `errors` map from each
failing path to a `ValidatorError` carrying a `message`. -/
def mongooseValidationErrorJs (message : String)
    (fieldErrors : List (String × String)) : JsValue :=
  .obj true
    [("name", .str "ValidationError"),
     ("message", .str message),
     ("errors", .obj false (fieldErrors.map fun p =>
       (p.1, .obj true
         [("name", .str "ValidatorError"),
          ("message", .str p.2),
          ("path", .str p.1)])))]

/-- The `MongoServerError` raised on a unique-index violation: carries
`code: 11000` and the offending `keyValue`. -/
def mongoDuplicateKeyErrorJs (field value : String) : JsValue :=
  .obj true
    [("name", .str "MongoServerError"),
     ("message", .str "E11000 duplicate key error"),
     ("code", .num 11000),
     ("keyValue", .obj false [(field, .str value)])]

/-! ## Task service (`src/services/task.service.ts`) -/

/-- Insert a task in creation order, newer first (`find().sort({createdAt:
-1})`). -/
def insertByCreatedAtDesc (t : TaskRecord) : List TaskRecord →
    List TaskRecord
  | [] => [t]
  | u :: us =>
    if u.createdAt ≤ t.createdAt then t :: u :: us
    else u :: insertByCreatedAtDesc t us

/-- `getAllTasks`: `TaskModel.find().sort({ createdAt: -1 })`. -/
def getAllTasks (store : TaskStore) : List TaskRecord :=
  store.foldr insertByCreatedAtDesc []

/-- `createNewTask`: `new TaskModel(taskData)` then `save()`.  The save
runs the model's validators (`title` is required); `completed` defaults to
`false`; `createdAt`/`updatedAt` are set to the write time.  A `.error`
result is the thrown Mongoose error. -/
def createNewTask (store : TaskStore) (now newId : Nat)
    (title description : Option String) (completed : Option Bool) :
    Except JsValue (TaskRecord × TaskStore) :=
  if mongooseRequiredString title then
    let t : TaskRecord :=
      ⟨newId, title.getD "", description, completed.getD false, now, now⟩
    .ok (t, store ++ [t])
  else
    .error (mongooseValidationErrorJs
      "Task validation failed: title: Path `title` is required."
      [("title", "Path `title` is required.")])

/-- `getTaskById`: `TaskModel.findById(id)`. -/
def getTaskById (store : TaskStore) (id : Nat) : Option TaskRecord :=
  store.find? (fun t => t.id == id)

/-- `updateTaskById`: `findByIdAndUpdate(id, taskData, {new: true,
runValidators: true})`.  Fields that are `undefined` are stripped from the
update; update validators run on the paths being set, so setting `title`
to the empty string fails the required validator. -/
def updateTaskById (store : TaskStore) (now id : Nat)
    (title description : Option String) (completed : Option Bool) :
    Except JsValue (Option TaskRecord × TaskStore) :=
  match store.find? (fun t => t.id == id) with
  | none => .ok (none, store)
  | some t =>
    if title == some "" then
      .error (mongooseValidationErrorJs
        "Validation failed: title: Path `title` is required."
        [("title", "Path `title` is required.")])
    else
      let t' : TaskRecord :=
        { t with
          title := title.getD t.title,
          description := match description with
            | some d => some d
            | none => t.description,
          completed := completed.getD t.completed,
          updatedAt := now }
      .ok (some t', store.map fun u => if u.id == id then t' else u)

/-- `deleteTaskById`: `TaskModel.findByIdAndDelete(id)`. -/
def deleteTaskById (store : TaskStore) (id : Nat) :
    Option TaskRecord × TaskStore :=
  match store.find? (fun t => t.id == id) with
  | none => (none, store)
  | some t => (some t, store.eraseP (fun u => u.id == id))

/-- `toggleTaskCompletion`: `findById`, flip `completed`, `save()` (the
save updates the document in place and refreshes `updatedAt`). -/
def toggleTaskCompletion (store : TaskStore) (now id : Nat) :
    Option TaskRecord × TaskStore :=
  match store.find? (fun t => t.id == id) with
  | none => (none, store)
  | some t =>
    let t' : TaskRecord := { t with completed := !t.completed, updatedAt := now }
    (some t', store.map fun u => if u.id == id then t' else u)

/-! ## User service (`src/services/user.service.ts`) -/

/-- `getAllUsers`: `UserModel.find()`. -/
def getAllUsers (store : UserStore) : List UserRecord := store

/-- `createNewUser`: `new UserModel(userData)` then `save()`.  Mongoose
validates the required paths, then the unique index on `email` rejects an
exact duplicate with an E11000 error. -/
def createNewUser (store : UserStore) (now newId : Nat)
    (name email : Option String) : Except JsValue (UserRecord × UserStore) :=
  if mongooseRequiredString name && mongooseRequiredString email then
    let e := email.getD ""
    if store.any (fun u => u.email == e) then
      .error (mongoDuplicateKeyErrorJs "email" e)
    else
      let u : UserRecord := ⟨newId, name.getD "", e, now, now⟩
      .ok (u, store ++ [u])
  else
    .error (mongooseValidationErrorJs "User validation failed"
      ((if mongooseRequiredString name then []
        else [("name", "Path `name` is required.")]) ++
       (if mongooseRequiredString email then []
        else [("email", "Path `email` is required.")])))

/-! ## Response handlers (`src/utils/handlers/api-response.ts`) -/

/-- The JSON envelope written to the transport, together with the HTTP
status it is written at. -/
structure ApiReply (α : Type) where
  status : Int
  success : Bool
  message : String
  data : Option α
deriving Repr, DecidableEq

/-- `successResponse(res, data, message, statusCode)`.  In the source
`message` defaults to `'Success'` and `statusCode` to `StatusCodes.OK`;
call sites that omit the status are embedded passing `StatusCodes.OK`
explicitly. -/
def successResponse {α : Type} (data : α) (message : String)
    (statusCode : Int) : ApiReply α :=
  ⟨statusCode, true, message, some data⟩

/-- `errorResponse(res, message, statusCode)`. -/
def errorResponse {α : Type} (message : String) (statusCode : Int) :
    ApiReply α :=
  ⟨statusCode, false, message, none⟩

/-- The `catch` block shared by every controller: classify the thrown
value with `mapError` and send `errorResponse(res, message, statusCode)`.
If `mapError` itself throws, the rejection escapes the controller. -/
def controllerCatch {α : Type} (e : JsValue) : Except JsError (ApiReply α) :=
  (mapError e).map fun r => errorResponse r.message r.statusCode

/-! ## Task controller (`src/controllers/task.controller.ts`) -/

/-- `getTasks`: list all tasks, `successResponse` with the default 200. -/
def getTasks (store : TaskStore) : ApiReply (List TaskRecord) :=
  successResponse (getAllTasks store) "Tasks retrieved successfully"
    StatusCodes.OK

/-- `createTask`: destructure `{title, description, completed}` from
`req.body`, call the service, reply 201 (`StatusCodes.CREATED`) on
success, classify thrown errors otherwise. -/
def createTask (store : TaskStore) (now newId : Nat)
    (title description : Option String) (completed : Option Bool) :
    Except JsError (ApiReply TaskRecord × TaskStore) :=
  match createNewTask store now newId title description completed with
  | .ok (t, store') =>
    .ok (successResponse t "Task created successfully" StatusCodes.CREATED,
      store')
  | .error e => (controllerCatch e).map fun r => (r, store)

/-- `getTask`: 404 with a fixed message when absent, 200 otherwise. -/
def getTask (store : TaskStore) (id : Nat) : ApiReply TaskRecord :=
  match getTaskById store id with
  | none => errorResponse "Task not found" StatusCodes.NOT_FOUND
  | some t => successResponse t "Task retrieved successfully" StatusCodes.OK

/-- `updateTask`. -/
def updateTask (store : TaskStore) (now id : Nat)
    (title description : Option String) (completed : Option Bool) :
    Except JsError (ApiReply TaskRecord × TaskStore) :=
  match updateTaskById store now id title description completed with
  | .ok (none, store') =>
    .ok (errorResponse "Task not found" StatusCodes.NOT_FOUND, store')
  | .ok (some t, store') =>
    .ok (successResponse t "Task updated successfully" StatusCodes.OK, store')
  | .error e => (controllerCatch e).map fun r => (r, store)

/-- `deleteTask`. -/
def deleteTask (store : TaskStore) (id : Nat) :
    ApiReply TaskRecord × TaskStore :=
  match deleteTaskById store id with
  | (none, store') =>
    (errorResponse "Task not found" StatusCodes.NOT_FOUND, store')
  | (some t, store') =>
    (successResponse t "Task deleted successfully" StatusCodes.OK, store')

/-- `toggleTask`: 404 with the fixed message `'Task not found'` when the
service returns the not-found sentinel, otherwise `successResponse` with
the default 200. -/
def toggleTask (store : TaskStore) (now id : Nat) :
    ApiReply TaskRecord × TaskStore :=
  match toggleTaskCompletion store now id with
  | (none, store') =>
    (errorResponse "Task not found" StatusCodes.NOT_FOUND, store')
  | (some t, store') =>
    (successResponse t "Task status toggled successfully" StatusCodes.OK,
      store')

/-! ## User controller (`src/controllers/user.controller.ts`) -/

/-- `getUsers`. -/
def getUsers (store : UserStore) : ApiReply (List UserRecord) :=
  successResponse (getAllUsers store) "Users retrieved successfully"
    StatusCodes.OK

/-- `createUser`: destructure `{name, email}` from `req.body`, call the
service, and reply with `successResponse(res, newUser, 'User created
successfully')` — no status argument, so the response is written with the
default `StatusCodes.OK` (200), not 201. -/
def createUser (store : UserStore) (now newId : Nat)
    (name email : Option String) :
    Except JsError (ApiReply UserRecord × UserStore) :=
  match createNewUser store now newId name email with
  | .ok (u, store') =>
    .ok (successResponse u "User created successfully" StatusCodes.OK, store')
  | .error e => (controllerCatch e).map fun r => (r, store)

/-! ## Request pipelines (route → validation gate → controller) -/

/-- Outcome of a full request pipeline: rejected by the validation gate,
answered by the controller, or crashed (an exception escaped the
controller and fell through to Express). -/
inductive PipelineResult (α : Type) where
  | validationRejected (statusCode : Int) (message : String)
      (errors : List (String × String))
  | replied (reply : ApiReply α)
  | crashed (e : JsError)
deriving Repr, DecidableEq

/-- `POST /tasks`: `validate(createTaskSchema)` then `createTask`.  The
gate forwards the original body on success, so the controller destructures
the raw `title`/`description`/`completed`. -/
def postTasks (store : TaskStore) (now newId : Nat) (body : TaskBody) :
    PipelineResult TaskRecord × TaskStore :=
  match validate createTaskSchema body with
  | .rejected sc msg errs => (.validationRejected sc msg errs, store)
  | .proceeded b =>
    match createTask store now newId b.title b.description b.completed with
    | .ok (r, store') => (.replied r, store')
    | .error e => (.crashed e, store)

/-- `POST /users`: `validate(createUserSchema)` then `createUser`. -/
def postUsers (store : UserStore) (now newId : Nat) (body : UserBody) :
    PipelineResult UserRecord × UserStore :=
  match validate createUserSchema body with
  | .rejected sc msg errs => (.validationRejected sc msg errs, store)
  | .proceeded b =>
    match createUser store now newId b.name b.email with
    | .ok (r, store') => (.replied r, store')
    | .error e => (.crashed e, store)

/-! ## Route registration (`src/server.ts`, `src/routes/task.routes.ts`,
`src/routes/user.routes.ts`)

`server.ts` registers a root `GET /` handler and mounts the task router at
`"/tasks"`.  It never imports or mounts the user router, although
`user.routes.ts` defines `GET /` and `POST /`. -/

structure Route where
  method : String
  path : String
deriving Repr, DecidableEq

/-- Routes defined by `task.routes.ts` (relative to the mount point). -/
def taskRouterRoutes : List Route :=
  [⟨"GET", "/"⟩, ⟨"POST", "/"⟩, ⟨"GET", "/:id"⟩, ⟨"PUT", "/:id"⟩,
   ⟨"DELETE", "/:id"⟩, ⟨"PATCH", "/:id/toggle"⟩]

/-- Routes defined by `user.routes.ts` (relative to the mount point). -/
def userRouterRoutes : List Route :=
  [⟨"GET", "/"⟩, ⟨"POST", "/"⟩]

/-- Express path join for `app.use(mount, router)`: a router-level `"/"`
matches the bare mount path. -/
def mountRoute (mount : String) (r : Route) : Route :=
  ⟨r.method, if r.path == "/" then mount else mount ++ r.path⟩

/-- The full route table of the running server: the root handler from
`app.get("/", ...)` plus the task router mounted by
`app.use("/tasks", taskRoutes)`.  No other router is mounted. -/
def appRegisteredRoutes : List Route :=
  ⟨"GET", "/"⟩ :: taskRouterRoutes.map (mountRoute "/tasks")

/-! ## Theorems -/

/-- Claim C1: the claim says that for every error carrying the
duplicate-key code the classifier returns 409 with `"<Field> already
exists"`, the field defaulting to `"Record"` whenever none can be
extracted.  Evaluating the code at the failing input — a duplicate-key
error whose `keyValue` payload is an object with no keys — shows that
`mapError` instead throws a `TypeError`: `Object.keys(keyValue)[0]` is
`undefined` and `.charAt(0)` is called on it, so no `(message, 409)` pair
is produced. -/
theorem mapError_dupKey_emptyKeyValue_throws :
    mapError (.obj false [("code", .num 11000), ("keyValue", .obj false [])]) =
      Except.error JsError.typeError := rfl

/-- Claim C2: the claim says `mapError` terminates normally on every input
and never throws.  Evaluating the code at the failing input — a realistic
`MongoServerError` shape with `code: 11000` and an empty `keyValue`
object — shows `mapError` throwing a `TypeError` instead of returning a
`{message, statusCode}` pair. -/
theorem mapError_throws_on_empty_keyValue :
    mapError (.obj true
      [("name", .str "MongoServerError"),
       ("message", .str "E11000 duplicate key error"),
       ("code", .num 11000),
       ("keyValue", .obj false [])]) =
      Except.error JsError.typeError := rfl

/-- Claim C3 counterexample: a `ValidationError` whose `errors` map is
present but empty has no extractable nested messages, yet `mapError`
returns the empty-string message (the join of zero messages), not the
`"Validation failed"` fallback the claim requires. -/
theorem mapError_validation_emptyErrors_not_fallback :
    mapError (.obj true
      [("name", .str "ValidationError"),
       ("message", .str "Validation failed"),
       ("errors", .obj false [])]) =
      Except.ok ⟨"", StatusCodes.BAD_REQUEST⟩ ∧
    ("" : String) ≠ "Validation failed" :=
  ⟨rfl, by decide⟩

/-- Claim C4: the claim (and the spec's invariant) says an empty or
whitespace-only title is rejected by the validation gate with 400 before
any store write.  Evaluating the code: the empty title is indeed rejected,
but a whitespace-only title passes the gate — `createTaskSchema` runs
`.min(1)` on the untrimmed value (`"   "` has length 3) before `.trim()` —
so the controller and service run and a task with a whitespace-only title
is written to the store with status 201. -/
theorem postTasks_whitespace_title_is_stored :
    postTasks [] 7 1 ⟨some "", none, none⟩ =
      (.validationRejected StatusCodes.BAD_REQUEST "Validation failed"
        [("body.title", "Title must not be empty")], []) ∧
    postTasks [] 7 1 ⟨some "   ", none, none⟩ =
      (.replied ⟨StatusCodes.CREATED, true, "Task created successfully",
        some ⟨1, "   ", none, false, 7, 7⟩⟩,
       [⟨1, "   ", none, false, 7, 7⟩]) :=
  ⟨rfl, rfl⟩

/-- Claim C5 counterexample: for a successful `POST /users` the stored
email is the submitted string verbatim, not the schema-normalized one.
`createUserSchema` does compute the trimmed lowercased email, but
`validate` discards the parse result, so the controller and service
receive `"John@Example.com"` unchanged and store it; the normalized form
`"john@example.com"` is never substituted. -/
theorem postUsers_stores_raw_email :
    postUsers [] 3 1 ⟨some "John", some "John@Example.com"⟩ =
      (.replied ⟨StatusCodes.OK, true, "User created successfully",
        some ⟨1, "John", "John@Example.com", 3, 3⟩⟩,
       [⟨1, "John", "John@Example.com", 3, 3⟩]) ∧
    createUserSchema ⟨some "John", some "John@Example.com"⟩ =
      Except.ok ⟨"John", "john@example.com"⟩ ∧
    ("John@Example.com" : String) ≠ "john@example.com" :=
  ⟨rfl, rfl, by decide⟩

/-- Claim C6 counterexample: the user-create controller is a
resource-create operation, but its success response is written with status
200, not 201 — `createUser` calls `successResponse` without a status
argument, which defaults to `StatusCodes.OK`. -/
theorem createUser_success_status_is_200 :
    createUser [] 0 1 (some "John") (some "john@example.com") =
      Except.ok (⟨StatusCodes.OK, true, "User created successfully",
        some ⟨1, "John", "john@example.com", 0, 0⟩⟩,
       [⟨1, "John", "john@example.com", 0, 0⟩]) ∧
    StatusCodes.OK ≠ StatusCodes.CREATED :=
  ⟨rfl, by decide⟩

/-- Claim C7: the claim says `GET /users` and `POST /users` are registered
routes of the running server.  Evaluating the route table built by
`server.ts`: the user router defines both routes, but the server never
mounts it, so neither route is registered. -/
theorem users_routes_not_registered :
    (⟨"GET", "/users"⟩ : Route) ∉ appRegisteredRoutes ∧
    (⟨"POST", "/users"⟩ : Route) ∉ appRegisteredRoutes ∧
    (⟨"GET", "/"⟩ : Route) ∈ userRouterRoutes ∧
    (⟨"POST", "/"⟩ : Route) ∈ userRouterRoutes := by
  decide

/-- An `AppError` value reaches exactly the application-error branch of
`mapError`: none of the earlier duck-type checks match its shape. -/
theorem mapError_AppError_eq (m : String) (c : Int) :
    mapError (AppError m c) =
      Except.ok ⟨m, if c == 0 then StatusCodes.INTERNAL_SERVER_ERROR else c⟩ :=
  rfl

/-- Claim C9: round-trip between `AppError` and the classifier.  For every
message `m` and nonzero code `c`, `mapError (AppError m c)` is exactly
`{message := m, statusCode := c}`; an `AppError` built without an explicit
code carries 500 and maps to `{message := m, statusCode := 500}`. -/
theorem mapError_AppError_roundtrip :
    (∀ (m : String) (c : Int), c ≠ 0 →
      mapError (AppError m c) = Except.ok ⟨m, c⟩) ∧
    (∀ m : String,
      mapError (AppErrorDefault m) =
        Except.ok ⟨m, StatusCodes.INTERNAL_SERVER_ERROR⟩) := by
  constructor
  · intro m c hc
    have h0 : (c == 0) = false := by simpa using hc
    rw [mapError_AppError_eq, h0]
    simp
  · intro m
    rfl

/-- Witness for Claim C9 at concrete inputs. -/
theorem mapError_AppError_roundtrip_witness :
    mapError (AppError "Payment required" 402) =
      Except.ok ⟨"Payment required", 402⟩ ∧
    mapError (AppErrorDefault "boom") = Except.ok ⟨"boom", 500⟩ :=
  ⟨mapError_AppError_roundtrip.1 "Payment required" 402 (by decide),
   mapError_AppError_roundtrip.2 "boom"⟩

/-- The nested `errors` values of a Mongoose `ValidationError` all carry a
string `message`, so mapping the `err.message` read over them never throws
and collects exactly the per-field messages. -/
theorem validatorErrors_mapM_message (l : List (String × String)) :
    ((l.map fun p => (p.1, JsValue.obj true
        [("name", .str "ValidatorError"), ("message", .str p.2),
         ("path", .str p.1)])).map Prod.snd).mapM
      (fun err => getMember err "message") =
      Except.ok (l.map fun p => JsValue.str p.2) := by
  induction l with
  | nil => rfl
  | cons p ps ih =>
    simp only [List.map_cons, List.mapM_cons, ih]
    rfl

/-- `extractValidationMessage` on a well-formed Mongoose `ValidationError`
joins the per-field messages with `", "`. -/
theorem extractValidationMessage_mongoose (msg : String)
    (l : List (String × String)) :
    extractValidationMessage (mongooseValidationErrorJs msg l) =
      Except.ok (String.intercalate ", " (l.map Prod.snd)) := by
  show (((l.map fun p => (p.1, JsValue.obj true
        [("name", .str "ValidatorError"), ("message", .str p.2),
         ("path", .str p.1)])).map Prod.snd).mapM
      (fun err => getMember err "message")) >>= (fun messages =>
        pure (String.intercalate ", " (messages.map jsJoinString))) =
    Except.ok (String.intercalate ", " (l.map Prod.snd))
  rw [validatorErrors_mapM_message]
  show Except.ok (String.intercalate ", "
    ((l.map fun p => JsValue.str p.2).map jsJoinString)) = _
  rw [List.map_map]
  rfl

/-- Claim C3 (amended): for a store validation error (`name =
'ValidationError'`, no duplicate-key code) `mapError` returns 400 with the
per-field nested messages joined by `", "` whenever the error carries an
`errors` property — including the empty join `""` when that map has no
entries — and returns the `"Validation failed"` fallback exactly when the
error has no `errors` property. -/
theorem mapError_validationError_message :
    (∀ (msg : String) (fieldErrors : List (String × String)),
      mapError (mongooseValidationErrorJs msg fieldErrors) =
        Except.ok ⟨String.intercalate ", " (fieldErrors.map Prod.snd),
          StatusCodes.BAD_REQUEST⟩) ∧
    (∀ msg : String,
      mapError (.obj true
        [("name", .str "ValidationError"), ("message", .str msg)]) =
        Except.ok ⟨"Validation failed", StatusCodes.BAD_REQUEST⟩) := by
  constructor
  · intro msg l
    show extractValidationMessage (mongooseValidationErrorJs msg l) >>=
        (fun m => pure (⟨m, StatusCodes.BAD_REQUEST⟩ : ErrorResponse)) = _
    rw [extractValidationMessage_mongoose]
    rfl
  · intro msg
    rfl

/-- Claim C5 (amended): the validation gate only checks — on success the
request proceeds with the *original* request fields, the parse result
(with its transforms applied) being discarded; consequently a successful
`POST /users` stores the submitted email string verbatim, not its trimmed
lowercased normalization. -/
theorem validate_discards_parse_result :
    (∀ (β γ : Type) (parse : β → Except (List ZodIssue) γ) (body b : β),
      validate parse body = GateOutcome.proceeded b → b = body) ∧
    (∀ (store : UserStore) (now newId : Nat) (n e : String)
      (p : ParsedUserBody),
      createUserSchema ⟨some n, some e⟩ = Except.ok p →
      0 < n.length → 0 < e.length →
      store.any (fun u => u.email == e) = false →
      postUsers store now newId ⟨some n, some e⟩ =
        (.replied (successResponse (⟨newId, n, e, now, now⟩ : UserRecord)
          "User created successfully" StatusCodes.OK),
         store ++ [⟨newId, n, e, now, now⟩])) := by
  constructor
  · intro β γ parse body b h
    unfold validate at h
    cases hp : parse body with
    | ok v =>
      rw [hp] at h
      injection h with h1
      exact h1.symm
    | error issues =>
      rw [hp] at h
      cases h
  · intro store now newId n e p hp hn he hdup
    simp [postUsers, validate, hp, createUser, createNewUser,
      mongooseRequiredString, hn, he, hdup, successResponse]

/-- Witness for Claim C5's amended theorem at concrete inputs. -/
theorem validate_discards_parse_result_witness :
    ((⟨some "Jane", some "jane@example.org"⟩ : UserBody) =
      ⟨some "Jane", some "jane@example.org"⟩) ∧
    postUsers [] 4 1 ⟨some "Jane", some "jane@example.org"⟩ =
      (.replied (successResponse (⟨1, "Jane", "jane@example.org", 4, 4⟩ :
        UserRecord) "User created successfully" StatusCodes.OK),
       [⟨1, "Jane", "jane@example.org", 4, 4⟩]) :=
  ⟨validate_discards_parse_result.1 UserBody ParsedUserBody createUserSchema
      ⟨some "Jane", some "jane@example.org"⟩
      ⟨some "Jane", some "jane@example.org"⟩ rfl,
   validate_discards_parse_result.2 [] 4 1 "Jane" "jane@example.org"
      ⟨"Jane", "jane@example.org"⟩ rfl (by decide) (by decide) rfl⟩

/-- Claim C6 (amended): the task-create controller responds 201 on
success; the user-create controller responds 200 on success (it calls
`successResponse` without a status argument); every other successful
controller operation also responds 200. -/
theorem controller_success_statuses :
    (∀ (store : TaskStore) (now newId : Nat)
      (title description : Option String) (completed : Option Bool)
      (r : ApiReply TaskRecord) (store' : TaskStore),
      createTask store now newId title description completed =
        Except.ok (r, store') →
      r.success = true → r.status = StatusCodes.CREATED) ∧
    (∀ (store : UserStore) (now newId : Nat) (name email : Option String)
      (r : ApiReply UserRecord) (store' : UserStore),
      createUser store now newId name email = Except.ok (r, store') →
      r.success = true → r.status = StatusCodes.OK) ∧
    (∀ store : TaskStore, (getTasks store).status = StatusCodes.OK) ∧
    (∀ (store : TaskStore) (id : Nat), (getTask store id).success = true →
      (getTask store id).status = StatusCodes.OK) ∧
    (∀ (store : TaskStore) (now id : Nat)
      (title description : Option String) (completed : Option Bool)
      (r : ApiReply TaskRecord) (store' : TaskStore),
      updateTask store now id title description completed =
        Except.ok (r, store') →
      r.success = true → r.status = StatusCodes.OK) ∧
    (∀ (store : TaskStore) (id : Nat),
      (deleteTask store id).1.success = true →
      (deleteTask store id).1.status = StatusCodes.OK) ∧
    (∀ (store : TaskStore) (now id : Nat),
      (toggleTask store now id).1.success = true →
      (toggleTask store now id).1.status = StatusCodes.OK) ∧
    (∀ store : UserStore, (getUsers store).status = StatusCodes.OK) := by
  refine ⟨?_, ?_, ?_, ?_, ?_, ?_, ?_, ?_⟩
  · intro store now newId ti de co r store' h hs
    cases hm : createNewTask store now newId ti de co with
    | ok p =>
      obtain ⟨t, s⟩ := p
      simp [createTask, hm] at h
      rw [← h.1]
      rfl
    | error e =>
      cases hme : mapError e with
      | ok resp =>
        simp [createTask, hm, controllerCatch, hme, Except.map] at h
        rw [← h.1] at hs
        simp [errorResponse] at hs
      | error je =>
        simp [createTask, hm, controllerCatch, hme, Except.map] at h
  · intro store now newId nm em r store' h hs
    cases hm : createNewUser store now newId nm em with
    | ok p =>
      obtain ⟨u, s⟩ := p
      simp [createUser, hm] at h
      rw [← h.1]
      rfl
    | error e =>
      cases hme : mapError e with
      | ok resp =>
        simp [createUser, hm, controllerCatch, hme, Except.map] at h
        rw [← h.1] at hs
        simp [errorResponse] at hs
      | error je =>
        simp [createUser, hm, controllerCatch, hme, Except.map] at h
  · intro store
    rfl
  · intro store id hs
    cases hg : getTaskById store id with
    | none =>
      simp [getTask, hg, errorResponse] at hs
    | some t =>
      simp [getTask, hg, successResponse]
  · intro store now id ti de co r store' h hs
    cases hf : store.find? (fun t => t.id == id) with
    | none =>
      simp [updateTask, updateTaskById, hf] at h
      rw [← h.1] at hs
      simp [errorResponse] at hs
    | some t =>
      by_cases hti : ti == some ""
      · cases hme : mapError (mongooseValidationErrorJs
          "Validation failed: title: Path `title` is required."
          [("title", "Path `title` is required.")]) with
        | ok resp =>
          simp [updateTask, updateTaskById, hf, hti, controllerCatch, hme,
            Except.map] at h
          rw [← h.1] at hs
          simp [errorResponse] at hs
        | error je =>
          simp [updateTask, updateTaskById, hf, hti, controllerCatch, hme,
            Except.map] at h
      · simp [updateTask, updateTaskById, hf, hti] at h
        rw [← h.1]
        rfl
  · intro store id hs
    cases hf : store.find? (fun t => t.id == id) with
    | none =>
      simp [deleteTask, deleteTaskById, hf, errorResponse] at hs
    | some t =>
      simp [deleteTask, deleteTaskById, hf, successResponse]
  · intro store now id hs
    cases hf : store.find? (fun t => t.id == id) with
    | none =>
      simp [toggleTask, toggleTaskCompletion, hf, errorResponse] at hs
    | some t =>
      simp [toggleTask, toggleTaskCompletion, hf, successResponse]
  · intro store
    rfl

/-- Witness for Claim C6's amended theorem at concrete inputs. -/
theorem controller_success_statuses_witness :
    (⟨StatusCodes.CREATED, true, "Task created successfully",
      some ⟨1, "A", none, false, 0, 0⟩⟩ : ApiReply TaskRecord).status =
        StatusCodes.CREATED ∧
    (⟨StatusCodes.OK, true, "User created successfully",
      some ⟨1, "Jo", "jo@example.org", 0, 0⟩⟩ : ApiReply UserRecord).status =
        StatusCodes.OK ∧
    (getTask [⟨1, "A", none, false, 0, 0⟩] 1).status = StatusCodes.OK ∧
    (⟨StatusCodes.OK, true, "Task updated successfully",
      some ⟨1, "A", none, true, 0, 5⟩⟩ : ApiReply TaskRecord).status =
        StatusCodes.OK ∧
    (deleteTask [⟨1, "A", none, false, 0, 0⟩] 1).1.status = StatusCodes.OK ∧
    (toggleTask [⟨1, "A", none, false, 0, 0⟩] 5 1).1.status =
      StatusCodes.OK :=
  ⟨controller_success_statuses.1 [] 0 1 (some "A") none none
      ⟨StatusCodes.CREATED, true, "Task created successfully",
        some ⟨1, "A", none, false, 0, 0⟩⟩ [⟨1, "A", none, false, 0, 0⟩]
      rfl rfl,
   controller_success_statuses.2.1 [] 0 1 (some "Jo") (some "jo@example.org")
      ⟨StatusCodes.OK, true, "User created successfully",
        some ⟨1, "Jo", "jo@example.org", 0, 0⟩⟩
      [⟨1, "Jo", "jo@example.org", 0, 0⟩] rfl rfl,
   controller_success_statuses.2.2.2.1 [⟨1, "A", none, false, 0, 0⟩] 1 rfl,
   controller_success_statuses.2.2.2.2.1 [⟨1, "A", none, false, 0, 0⟩] 5 1
      none none (some true)
      ⟨StatusCodes.OK, true, "Task updated successfully",
        some ⟨1, "A", none, true, 0, 5⟩⟩ [⟨1, "A", none, true, 0, 5⟩]
      rfl rfl,
   controller_success_statuses.2.2.2.2.2.1 [⟨1, "A", none, false, 0, 0⟩] 1
      rfl,
   controller_success_statuses.2.2.2.2.2.2.1 [⟨1, "A", none, false, 0, 0⟩]
      5 1 rfl⟩

/-- Claim C8: toggling an id that is not in the store responds 404 with
the fixed message `"Task not found"`; toggling an existing task whose
`completed` field is `false` responds 200 with the task's `completed`
field set to `true`. -/
theorem toggleTask_notFound_and_flip :
    (∀ (store : TaskStore) (now id : Nat), (∀ t ∈ store, t.id ≠ id) →
      toggleTask store now id =
        (errorResponse "Task not found" StatusCodes.NOT_FOUND, store)) ∧
    (∀ (store : TaskStore) (now id : Nat) (t : TaskRecord),
      store.find? (fun u => u.id == id) = some t → t.completed = false →
      (toggleTask store now id).1 =
        successResponse { t with completed := true, updatedAt := now }
          "Task status toggled successfully" StatusCodes.OK) := by
  constructor
  · intro store now id h
    have hf : store.find? (fun t => t.id == id) = none := by
      rw [List.find?_eq_none]
      intro x hx
      simpa using h x hx
    simp [toggleTask, toggleTaskCompletion, hf]
  · intro store now id t hf hc
    simp [toggleTask, toggleTaskCompletion, hf, hc]

/-- Witness for Claim C8 at concrete inputs. -/
theorem toggleTask_notFound_and_flip_witness :
    toggleTask [] 5 42 =
      (errorResponse "Task not found" StatusCodes.NOT_FOUND, []) ∧
    (toggleTask [⟨1, "Read", none, false, 0, 0⟩] 5 1).1 =
      successResponse (⟨1, "Read", none, true, 0, 5⟩ : TaskRecord)
        "Task status toggled successfully" StatusCodes.OK :=
  ⟨toggleTask_notFound_and_flip.1 [] 5 42 (by simp),
   toggleTask_notFound_and_flip.2 [⟨1, "Read", none, false, 0, 0⟩] 5 1
      ⟨1, "Read", none, false, 0, 0⟩ rfl rfl⟩

/-- Claim C10: for a task present in the store, `toggleTaskCompletion`
returns a record that differs from it only in `completed` (inverted) and
`updatedAt` (refreshed); the store keeps its length, every position whose
record has a different id is unchanged, and the positions holding the
toggled id hold the updated record. -/
theorem toggleTaskCompletion_frame :
    ∀ (store : TaskStore) (now id : Nat) (t : TaskRecord),
      store.find? (fun u => u.id == id) = some t →
      ∃ (t' : TaskRecord) (store' : TaskStore),
        toggleTaskCompletion store now id = (some t', store') ∧
        t'.id = t.id ∧ t'.title = t.title ∧
        t'.description = t.description ∧ t'.createdAt = t.createdAt ∧
        t'.completed = !t.completed ∧ t'.updatedAt = now ∧
        store'.length = store.length ∧
        (∀ (i : Nat) (u : TaskRecord), store[i]? = some u → u.id ≠ id →
          store'[i]? = some u) ∧
        (∀ (i : Nat) (u : TaskRecord), store[i]? = some u → u.id = id →
          store'[i]? = some t') := by
  intro store now id t hf
  refine ⟨{ t with completed := !t.completed, updatedAt := now },
    store.map fun u =>
      if u.id == id then { t with completed := !t.completed, updatedAt := now }
      else u,
    by simp [toggleTaskCompletion, hf], rfl, rfl, rfl, rfl, rfl, rfl,
    by simp, ?_, ?_⟩
  · intro i u hu hne
    rw [List.getElem?_map, hu]
    simp
    exact fun h => absurd h hne
  · intro i u hu heq
    rw [List.getElem?_map, hu]
    simp
    exact fun h => absurd heq h

/-- Witness for Claim C10 at a concrete store. -/
theorem toggleTaskCompletion_frame_witness :
    ∃ (t' : TaskRecord) (store' : TaskStore),
      toggleTaskCompletion [⟨2, "B", some "d", true, 1, 1⟩] 9 2 =
        (some t', store') ∧
      t'.id = 2 ∧ t'.title = "B" ∧ t'.description = some "d" ∧
      t'.createdAt = 1 ∧ t'.completed = !true ∧ t'.updatedAt = 9 ∧
      store'.length = 1 ∧
      (∀ (i : Nat) (u : TaskRecord),
        ([⟨2, "B", some "d", true, 1, 1⟩] : TaskStore)[i]? = some u →
        u.id ≠ 2 → store'[i]? = some u) ∧
      (∀ (i : Nat) (u : TaskRecord),
        ([⟨2, "B", some "d", true, 1, 1⟩] : TaskStore)[i]? = some u →
        u.id = 2 → store'[i]? = some t') :=
  toggleTaskCompletion_frame [⟨2, "B", some "d", true, 1, 1⟩] 9 2
    ⟨2, "B", some "d", true, 1, 1⟩ rfl

end TodoApp
